import Mathlib

/-!
# GS2_STR: Wi-Fi network monitor (FreeRTOS, three tasks)

Shallow embedding of `src/GS2_STR.c`.

* A heap block returned by `malloc` is named by its allocation number (`Ptr`): the
  n-th successful `malloc` returns block `n`.  The live blocks and their contents are
  `State.heap`; `State.freed` records every call of `free`, in order.
* `filaSSID` is the FreeRTOS queue of `char *` created in `app_main` with
  `TAMANHO_FILA` slots; the head of the list is the front of the queue.
* One body of each `while (1)` loop is a function from the state at the start of the
  iteration to the state at its end, together with the calls the iteration makes, in
  program order (`Event`).
* The Monitor and the Validator access the queue and their flag once per iteration.
  The Supervisor reads each `volatile` flag twice and writes it once; iterations of the
  other two tasks can fall between these accesses (`Entre`).
* What the environment decides is an argument of the body: the result of
  `esp_wifi_sta_get_ap_info`, whether `malloc` succeeds, whether `xSemaphoreTake`
  obtains the mutex within `TIMEOUT_MUTEX_MS`.
* An SSID is the sequence of characters of a C string before its terminating NUL.
-/

namespace GS2

/-! ## Constants (lines 18-34) -/

def LOG_PREFIX : String := "[WIFI_MONITOR] "

def TAMANHO_FILA : Nat := 5
def TIMEOUT_RECEPCAO_SSID_MS : Nat := 5000
def TIMEOUT_MUTEX_MS : Nat := 1000
def TIMEOUT_WDT_S : Nat := 10
def PERIODO_VERIFICACAO_WIFI : Nat := 4000
def PERIODO_SUPERVISAO : Nat := 5000

def listaRedesSeguras : List String :=
  ["Rede_Segura_1", "Rede_Segura_2", "REDE_DIRETORIA_TESTE", "Laboratorio_Dev", "Home_Office_Admin"]

def numRedesSeguras : Nat := 5

/-! ## State and events -/

/-- Name of a heap block: its allocation number. -/
abbrev Ptr := Nat

/-- Globals of the program (lines 36-43) and the heap. -/
structure State where
  filaSSID : List Ptr
  task_monitor_ok : Bool
  task_validator_ok : Bool
  heap : List (Ptr × String)
  nextPtr : Ptr
  freed : List Ptr
  deriving DecidableEq, Repr

/-- Calls made by a task, as they appear in the source. -/
inductive Event where
  | printf (fmt : String)
  | printfStr (fmt : String) (arg : String)
  | printfSSID (fmt : String) (p : Ptr) (s : String)
  | malloc (r : Option Ptr)
  | strcpy (p : Ptr) (s : String)
  | xQueueSend (p : Ptr) (ok : Bool)
  | xQueueReceive (r : Option Ptr)
  | xSemaphoreTake (ok : Bool)
  | xSemaphoreGive
  | strcmp (p : Ptr) (i : Nat) (r : Int)
  | free (p : Ptr)
  | esp_task_wdt_reset
  | vTaskDelay (ms : Nat)
  deriving DecidableEq, Repr

/-! ## Library calls -/

/-- Comparison loop of C `strcmp` on two strings given by their characters before the
terminating NUL: walk while the characters agree and are not NUL, return the difference
of the first pair that stops the walk (the end of a list reads as NUL). -/
def strcmpAux : List Char → List Char → Int
  | [], [] => 0
  | [], b :: _ => 0 - (b.toNat : Int)
  | a :: _, [] => (a.toNat : Int) - 0
  | a :: as, b :: bs =>
    if a.toNat ≠ 0 ∧ a = b then strcmpAux as bs else (a.toNat : Int) - (b.toNat : Int)

def strcmp (a b : String) : Int := strcmpAux a.data b.data

/-- Result of `malloc(33)`: a fresh block with unspecified content, or NULL. -/
def malloc (ok : Bool) (st : State) : State × Option Ptr :=
  if ok then
    ({ st with heap := st.heap ++ [(st.nextPtr, "")], nextPtr := st.nextPtr + 1 }, some st.nextPtr)
  else (st, none)

/-- Effect of `strcpy(p, s)`: block `p` now holds `s`. -/
def strcpy (p : Ptr) (s : String) (st : State) : State :=
  { st with heap := st.heap.map (fun b => if b.1 = p then (p, s) else b) }

/-- Effect of `free(p)`: block `p` is no longer live, and the call is recorded. -/
def free (p : Ptr) (st : State) : State :=
  { st with heap := st.heap.filter (fun b => b.1 != p), freed := st.freed ++ [p] }

/-- The C string read through `p` (empty when `p` is not a live block). -/
def deref (st : State) (p : Ptr) : String := (st.heap.lookup p).getD ""

/-- Result of `xQueueSend(filaSSID, &p, 0)`: fails at once when the queue is full. -/
def xQueueSend (p : Ptr) (st : State) : State × Bool :=
  if st.filaSSID.length < TAMANHO_FILA then
    ({ st with filaSSID := st.filaSSID ++ [p] }, true)
  else (st, false)

/-- Result of `xQueueReceive(filaSSID, &p, timeout)`: the front of the queue, or a
timeout when the queue stays empty. -/
def xQueueReceive (st : State) : State × Option Ptr :=
  match st.filaSSID with
  | [] => (st, none)
  | p :: rest => ({ st with filaSSID := rest }, some p)

/-! ## TaskWifiMonitor (lines 53-81) -/

/-- One iteration of the loop of `TaskWifiMonitor`. -/
def TaskWifiMonitor (ap_info : Option String) (mallocOk : Bool) (st : State) :
    State × List Event :=
  match ap_info with
  | some ssid =>
    match malloc mallocOk st with
    | (st1, none) =>
      (st1, [Event.malloc none,
             Event.printf (LOG_PREFIX ++ "[MONITOR] Falha ao alocar memoria para o SSID!\n"),
             Event.vTaskDelay 1000])
    | (st1, some ssid_conectado) =>
      let st2 := strcpy ssid_conectado ssid st1
      match xQueueSend ssid_conectado st2 with
      | (st3, true) =>
        ({ st3 with task_monitor_ok := true },
         [Event.malloc (some ssid_conectado),
          Event.strcpy ssid_conectado ssid,
          Event.xQueueSend ssid_conectado true,
          Event.printfSSID (LOG_PREFIX ++ "[MONITOR] Conectado a: %s. Enviado para validacao.\n")
            ssid_conectado (deref st3 ssid_conectado),
          Event.esp_task_wdt_reset,
          Event.vTaskDelay PERIODO_VERIFICACAO_WIFI])
      | (st3, false) =>
        (free ssid_conectado st3,
         [Event.malloc (some ssid_conectado),
          Event.strcpy ssid_conectado ssid,
          Event.xQueueSend ssid_conectado false,
          Event.printfSSID (LOG_PREFIX ++ "[MONITOR] Fila cheia! SSID %s descartado.\n")
            ssid_conectado (deref st3 ssid_conectado),
          Event.free ssid_conectado,
          Event.esp_task_wdt_reset,
          Event.vTaskDelay PERIODO_VERIFICACAO_WIFI])
  | none =>
    ({ st with task_monitor_ok := true },
     [Event.printf (LOG_PREFIX ++ "[MONITOR] Nao conectado. Aguardando conexao...\n"),
      Event.esp_task_wdt_reset,
      Event.vTaskDelay PERIODO_VERIFICACAO_WIFI])

/-! ## TaskWifiValidator (lines 89-128) -/

/-- The `for` loop of lines 97-102 from index `i` on: the value it leaves in `redeSegura`
and the `strcmp` calls it makes. -/
def varredura (p : Ptr) (s : String) : Nat → List String → Bool × List Event
  | _, [] => (false, [])
  | i, e :: es =>
    if strcmp s e = 0 then (true, [Event.strcmp p i (strcmp s e)])
    else ((varredura p s (i + 1) es).1, Event.strcmp p i (strcmp s e) :: (varredura p s (i + 1) es).2)

/-- Lines 93-108: the value of `redeSegura` and the calls made. -/
def validar (mutexOk : Bool) (p : Ptr) (s : String) : Bool × List Event :=
  if mutexOk then
    let r := varredura p s 0 (listaRedesSeguras.take numRedesSeguras)
    (r.1, [Event.xSemaphoreTake true] ++ r.2 ++ [Event.xSemaphoreGive])
  else
    (false, [Event.xSemaphoreTake false,
             Event.printf (LOG_PREFIX ++ "[VALIDADOR] Timeout ao esperar mutex da lista de redes!\n")])

/-- Confirmation line (line 111). -/
def fmtRedeSegura : String := LOG_PREFIX ++ "[VALIDADOR] REDE SEGURA. (%s) esta na lista.\n"

/-- Alert lines (lines 114-115). -/
def fmtAlerta : String := LOG_PREFIX ++ "[ALERTA] REDE NAO AUTORIZADA DETECTADA!\n"

def fmtAlertaSSID : String := LOG_PREFIX ++ "[ALERTA] Conectado a: %s\n"

/-- First line printed on receipt (line 92). -/
def fmtRecebido : String := LOG_PREFIX ++ "[VALIDADOR] Recebido SSID: %s. Validando...\n"

/-- Lines 110-117. -/
def relatar (redeSegura : Bool) (p : Ptr) (s : String) : List Event :=
  if redeSegura then
    [Event.printfSSID fmtRedeSegura p s]
  else
    [Event.printf "**************************************************\n",
     Event.printf fmtAlerta,
     Event.printfSSID fmtAlertaSSID p s,
     Event.printf "**************************************************\n"]

/-- One iteration of the loop of `TaskWifiValidator`. -/
def TaskWifiValidator (mutexOk : Bool) (st : State) : State × List Event :=
  match xQueueReceive st with
  | (st1, some ssid_recebido) =>
    let s := deref st1 ssid_recebido
    let v := validar mutexOk ssid_recebido s
    ({ free ssid_recebido st1 with task_validator_ok := true },
     [Event.xQueueReceive (some ssid_recebido), Event.printfSSID fmtRecebido ssid_recebido s]
       ++ v.2 ++ relatar v.1 ssid_recebido s
       ++ [Event.free ssid_recebido, Event.esp_task_wdt_reset])
  | (st1, none) =>
    ({ st1 with task_validator_ok := true },
     [Event.xQueueReceive none,
      Event.printf (LOG_PREFIX ++ "[VALIDADOR] Timeout! Nao ha SSIDs para validar.\n"),
      Event.esp_task_wdt_reset])

/-! ## TaskSupervisor (lines 134-151) -/

/-- One completed loop iteration of one of the two tasks of priority 5.  They can run
while the Supervisor (priority 4) is inside its loop body. -/
inductive Outra where
  | monitor (ap_info : Option String) (mallocOk : Bool)
  | validator (mutexOk : Bool)
  deriving DecidableEq, Repr

def outra : Outra → State → State × List Event
  | Outra.monitor ap_info mallocOk, st => TaskWifiMonitor ap_info mallocOk st
  | Outra.validator mutexOk, st => TaskWifiValidator mutexOk st

/-- Iterations of the other two tasks, one after the other. -/
def outras : List Outra → State → State × List Event
  | [], st => (st, [])
  | o :: os, st => ((outras os (outra o st).1).1, (outra o st).2 ++ (outras os (outra o st).1).2)

/-- Whether the iteration is one of the Validator. -/
def Outra.ehValidator : Outra → Bool
  | Outra.validator _ => true
  | _ => false

/-- Whether the iteration is one of the Monitor. -/
def Outra.ehMonitor : Outra → Bool
  | Outra.monitor _ _ => true
  | _ => false

/-- What the other two tasks do during one Supervisor iteration, between two
consecutive accesses of the Supervisor to the `volatile` flags: after the read of
`task_monitor_ok` at line 137, after the read of `task_validator_ok` at line 138,
between the reads of the two operands of `&&` at line 141, after line 141, and between
the writes of lines 147 and 148. -/
structure Entre where
  apos137 : List Outra
  apos138 : List Outra
  em141 : List Outra
  apos141 : List Outra
  apos147 : List Outra
  deriving DecidableEq, Repr

/-- No other task runs during the Supervisor iteration. -/
def Entre.nada : Entre :=
  { apos137 := [], apos138 := [], em141 := [], apos141 := [], apos147 := [] }

/-- State in which the Supervisor reads `task_monitor_ok` at line 141. -/
def Entre.estado141m (e : Entre) (st : State) : State :=
  (outras e.apos138 (outras e.apos137 st).1).1

/-- State in which the Supervisor reads `task_validator_ok` at line 141. -/
def Entre.estado141v (e : Entre) (st : State) : State :=
  (outras e.em141 (e.estado141m st)).1

/-- Outcome of one Supervisor iteration: the state when line 148 has run, the calls of
the Supervisor, and the calls of all tasks while the iteration ran, both in order. -/
structure Supervisao where
  st : State
  chamadas : List Event
  todas : List Event
  deriving DecidableEq, Repr

/-- One iteration of the loop of `TaskSupervisor`, with the other tasks running in
between as `e` says.  Each flag is read where the source reads it: for the status lines
(137, 138) and again for the decision (141); the right operand of `&&` is read after
the left one and its value matters only when the left one is `true`. -/
def TaskSupervisor (e : Entre) (st : State) : Supervisao :=
  let monitor137 := st.task_monitor_ok
  let r1 := outras e.apos137 st
  let validator138 := r1.1.task_validator_ok
  let r2 := outras e.apos138 r1.1
  let monitor141 := r2.1.task_monitor_ok
  let r3 := outras e.em141 r2.1
  let validator141 := r3.1.task_validator_ok
  let decisao :=
    if monitor141 && validator141 then
      [Event.esp_task_wdt_reset]
    else
      [Event.printf (LOG_PREFIX ++ "[SUPERVISOR] FALHA DETECTADA! Aguardando WDT reiniciar...\n")]
  let r4 := outras e.apos141 r3.1
  let st147 : State := { r4.1 with task_monitor_ok := false }
  let r5 := outras e.apos147 st147
  let st148 : State := { r5.1 with task_validator_ok := false }
  { st := st148,
    chamadas :=
      [Event.printf "--------------------------------------------------\n",
       Event.printf (LOG_PREFIX ++ "[SUPERVISOR] Status das Tarefas:\n"),
       Event.printfStr (LOG_PREFIX ++ "[SUPERVISOR] - TaskWifiMonitor: %s\n")
         (if monitor137 then "OK" else "FALHA"),
       Event.printfStr (LOG_PREFIX ++ "[SUPERVISOR] - TaskWifiValidator: %s\n")
         (if validator138 then "OK" else "FALHA/TIMEOUT"),
       Event.printf "--------------------------------------------------\n"]
      ++ decisao ++ [Event.vTaskDelay PERIODO_SUPERVISAO],
    todas :=
      [Event.printf "--------------------------------------------------\n",
       Event.printf (LOG_PREFIX ++ "[SUPERVISOR] Status das Tarefas:\n"),
       Event.printfStr (LOG_PREFIX ++ "[SUPERVISOR] - TaskWifiMonitor: %s\n")
         (if monitor137 then "OK" else "FALHA")]
      ++ (r1.2
      ++ ([Event.printfStr (LOG_PREFIX ++ "[SUPERVISOR] - TaskWifiValidator: %s\n")
            (if validator138 then "OK" else "FALHA/TIMEOUT"),
           Event.printf "--------------------------------------------------\n"]
      ++ (r2.2 ++ (r3.2 ++ (decisao ++ (r4.2 ++ (r5.2
      ++ [Event.vTaskDelay PERIODO_SUPERVISAO]))))))) }

/-! ## app_main and interleavings -/

/-- State when `app_main` has created the queue and the tasks: the queue is empty, both
flags are `false` (lines 42-43), nothing was allocated. -/
def app_main : State :=
  { filaSSID := [], task_monitor_ok := false, task_validator_ok := false,
    heap := [], nextPtr := 0, freed := [] }

/-- One completed loop iteration of one of the tasks, with what the environment decided;
for the Supervisor, with the iterations of the other tasks that run during it. -/
inductive Passo where
  | monitor (ap_info : Option String) (mallocOk : Bool)
  | validator (mutexOk : Bool)
  | supervisor (e : Entre)
  deriving DecidableEq, Repr

def passo : Passo → State → State × List Event
  | Passo.monitor ap_info mallocOk, st => TaskWifiMonitor ap_info mallocOk st
  | Passo.validator mutexOk, st => TaskWifiValidator mutexOk st
  | Passo.supervisor e, st => ((TaskSupervisor e st).st, (TaskSupervisor e st).todas)

/-- Run a sequence of completed iterations: final state and all calls made, in order. -/
def executar : List Passo → State → State × List Event
  | [], st => (st, [])
  | it :: its, st => ((executar its (passo it st).1).1, (passo it st).2 ++ (executar its (passo it st).1).2)

/-! ## Observations on a list of events -/

/-- The block of a successful `xQueueSend`. -/
def Event.enviado : Event → Option Ptr
  | Event.xQueueSend p true => some p
  | _ => none

/-- The block returned by an `xQueueReceive`. -/
def Event.recebido : Event → Option Ptr
  | Event.xQueueReceive (some p) => some p
  | _ => none

/-- Block and SSID of a `strcpy`. -/
def Event.escrito : Event → Option (Ptr × String)
  | Event.strcpy p s => some (p, s)
  | _ => none

/-- Block and SSID of the Validator's first read of a received sample (line 92). -/
def Event.lido : Event → Option (Ptr × String)
  | Event.printfSSID fmt p s => if fmt = fmtRecebido then some (p, s) else none
  | _ => none

/-- Blocks whose `xQueueSend` succeeded, in order. -/
def enviados (evs : List Event) : List Ptr := evs.filterMap Event.enviado

/-- Blocks returned by `xQueueReceive`, in order. -/
def recebidos (evs : List Event) : List Ptr := evs.filterMap Event.recebido

/-- Block and SSID of every `strcpy`, in order. -/
def escritos (evs : List Event) : List (Ptr × String) := evs.filterMap Event.escrito

/-- Block and SSID of every sample as the Validator reads it on receipt, in order. -/
def lidos (evs : List Event) : List (Ptr × String) := evs.filterMap Event.lido

/-- The block returned by a successful `malloc`. -/
def Event.alocado : Event → Option Ptr
  | Event.malloc (some p) => some p
  | _ => none

/-- The block passed to `free`. -/
def Event.liberado : Event → Option Ptr
  | Event.free p => some p
  | _ => none

/-- Blocks allocated, in order. -/
def alocados (evs : List Event) : List Ptr := evs.filterMap Event.alocado

/-- Blocks passed to `free`, in order. -/
def liberados (evs : List Event) : List Ptr := evs.filterMap Event.liberado

/-- Monitor iterations that capture the given SSIDs one after the other (device
associated, allocation successful). -/
def monitores (ssids : List String) : List Passo :=
  ssids.map (fun s => Passo.monitor (some s) true)

/-- Validator iterations, one per given outcome of `xSemaphoreTake`. -/
def validadores (mutexOks : List Bool) : List Passo := mutexOks.map Passo.validator

/-- Whether the event is a `strcmp` call. -/
def Event.isStrcmp : Event → Bool
  | Event.strcmp _ _ _ => true
  | _ => false

/-- Whether the event prints one of the alert lines. -/
def Event.isAlerta : Event → Bool
  | Event.printf fmt => fmt == fmtAlerta
  | Event.printfSSID fmt _ _ => fmt == fmtAlertaSSID
  | _ => false

/-- Ownership check of one iteration: `posse` is the set of blocks the task owns; a block
is owned from `malloc` or `xQueueReceive` until a successful `xQueueSend` or `free`;
every access through a pointer (`strcpy`, `strcmp`, `printf` with `%s`, `xQueueSend`,
`free`) must be to an owned block. -/
def acessosEmPosse : List Ptr → List Event → Bool
  | _, [] => true
  | posse, Event.malloc (some p) :: evs => acessosEmPosse (p :: posse) evs
  | posse, Event.xQueueReceive (some p) :: evs => acessosEmPosse (p :: posse) evs
  | posse, Event.xQueueSend p ok :: evs =>
    decide (p ∈ posse) && acessosEmPosse (if ok then posse.filter (fun q => q != p) else posse) evs
  | posse, Event.free p :: evs =>
    decide (p ∈ posse) && acessosEmPosse (posse.filter (fun q => q != p)) evs
  | posse, Event.strcpy p _ :: evs => decide (p ∈ posse) && acessosEmPosse posse evs
  | posse, Event.strcmp p _ _ :: evs => decide (p ∈ posse) && acessosEmPosse posse evs
  | posse, Event.printfSSID _ p _ :: evs => decide (p ∈ posse) && acessosEmPosse posse evs
  | posse, _ :: evs => acessosEmPosse posse evs

/-- Events that change no ownership and read at most block `p`. -/
def Event.leitura (p : Ptr) : Event → Bool
  | Event.printf _ => true
  | Event.printfStr _ _ => true
  | Event.printfSSID _ q _ => q == p
  | Event.strcmp q _ _ => q == p
  | Event.xSemaphoreTake _ => true
  | Event.xSemaphoreGive => true
  | Event.esp_task_wdt_reset => true
  | Event.vTaskDelay _ => true
  | _ => false

/-- Well-formed states: the live blocks are exactly the blocks in the queue, in queue
order; every block allocated so far is in the queue or was freed, and is there once; the
queue holds at most `TAMANHO_FILA` blocks. -/
def Inv (st : State) : Prop :=
  st.heap.map Prod.fst = st.filaSSID ∧
  (st.freed ++ st.filaSSID).Perm (List.range st.nextPtr) ∧
  st.filaSSID.length ≤ TAMANHO_FILA

/-- A C string: no character before the terminator is NUL. -/
def semNul (s : String) : Prop := ∀ c ∈ s.data, c.toNat ≠ 0

instance (s : String) : Decidable (semNul s) := by unfold semNul; infer_instance

/-- How a list of calls `tr` leads from state `st` to state `st'`: what was sent is what
was received followed by what the queue gained; every received block was read; blocks
read or live were live before or written in `tr`; the blocks written and the blocks
allocated in `tr` are the next allocation numbers; the blocks freed in `tr` are what
`freed` gained. -/
def Liga (st : State) (tr : List Event) (st' : State) : Prop :=
  st.filaSSID ++ enviados tr = recebidos tr ++ st'.filaSSID ∧
  (lidos tr).map Prod.fst = recebidos tr ∧
  (∀ b ∈ lidos tr, b ∈ st.heap ∨ b ∈ escritos tr) ∧
  (∀ b ∈ st'.heap, b ∈ st.heap ∨ b ∈ escritos tr) ∧
  List.range st.nextPtr ++ (escritos tr).map Prod.fst = List.range st'.nextPtr ∧
  List.range st.nextPtr ++ alocados tr = List.range st'.nextPtr ∧
  st'.freed = st.freed ++ liberados tr

/-! # Theorems -/

/-! ## Lemmas: strcmp and the scan -/

theorem strcmpAux_eq_zero (a : List Char) : ∀ b : List Char,
    (∀ c ∈ a, c.toNat ≠ 0) → (∀ c ∈ b, c.toNat ≠ 0) → (strcmpAux a b = 0 ↔ a = b) := by
  induction a with
  | nil =>
    intro b _ hb
    cases b with
    | nil => simp [strcmpAux]
    | cons y ys =>
      have hy : y.toNat ≠ 0 := hb y (by simp)
      simp [strcmpAux]
      omega
  | cons x xs ih =>
    intro b ha hb
    have hx : x.toNat ≠ 0 := ha x (by simp)
    cases b with
    | nil =>
      simp [strcmpAux]
      omega
    | cons y ys =>
      by_cases hxy : x = y
      · subst hxy
        have := ih ys (fun c hc => ha c (by simp [hc])) (fun c hc => hb c (by simp [hc]))
        simp [strcmpAux, hx, this]
      · have hne : x.toNat ≠ y.toNat := fun h => hxy (by rw [← Char.ofNat_toNat x, ← Char.ofNat_toNat y, h])
        simp [strcmpAux, hxy]
        omega

theorem strcmp_eq_zero (s e : String) (hs : semNul s) (he : semNul e) :
    strcmp s e = 0 ↔ s = e := by
  unfold strcmp
  rw [strcmpAux_eq_zero s.data e.data hs he]
  exact String.ext_iff.symm

theorem varredura_fst (p : Ptr) (s : String) (es : List String) : ∀ i : Nat,
    ((varredura p s i es).1 = true ↔ ∃ e ∈ es, strcmp s e = 0) := by
  induction es with
  | nil => intro i; simp [varredura]
  | cons e es ih =>
    intro i
    by_cases h : strcmp s e = 0
    · simp [varredura, h]
    · simp [varredura, h, ih (i + 1)]

theorem varredura_snd (p : Ptr) (s : String) (es : List String) : ∀ i : Nat,
    ∀ ev ∈ (varredura p s i es).2, ∃ j r, ev = Event.strcmp p j r := by
  induction es with
  | nil => intro i; simp [varredura]
  | cons e es ih =>
    intro i ev hev
    by_cases h : strcmp s e = 0
    · simp [varredura, h] at hev
      exact ⟨i, 0, by rw [hev]⟩
    · simp [varredura, h] at hev
      rcases hev with hev | hev
      · exact ⟨i, _, hev⟩
      · exact ih (i + 1) ev hev

theorem listaRedesSeguras_semNul : ∀ e ∈ listaRedesSeguras, semNul e := by decide

theorem validar_true_fst (p : Ptr) (s : String) (hs : semNul s) :
    (validar true p s).1 = true ↔ s ∈ listaRedesSeguras := by
  have htake : listaRedesSeguras.take numRedesSeguras = listaRedesSeguras := by decide
  simp only [validar, if_true, htake]
  rw [varredura_fst]
  constructor
  · rintro ⟨e, he, h0⟩
    rw [strcmp_eq_zero s e hs (listaRedesSeguras_semNul e he)] at h0
    rw [h0]; exact he
  · intro h
    exact ⟨s, h, (strcmp_eq_zero s s hs hs).2 rfl⟩

/-! ## Lemmas: the heap -/

theorem Inv.chave_lt {st : State} (h : Inv st) : ∀ b ∈ st.heap, b.1 < st.nextPtr := by
  intro b hb
  have h1 : b.1 ∈ st.filaSSID := by
    rw [← h.1]; exact List.mem_map_of_mem Prod.fst hb
  have h2 : b.1 ∈ st.freed ++ st.filaSSID := List.mem_append_right _ h1
  exact List.mem_range.1 (h.2.1.subset h2)

theorem map_strcpy_fresh (heap : List (Ptr × String)) (p : Ptr) (s t : String)
    (hf : ∀ b ∈ heap, b.1 ≠ p) :
    (heap ++ [(p, t)]).map (fun b => if b.1 = p then (p, s) else b) = heap ++ [(p, s)] := by
  rw [List.map_append]
  congr 1
  · conv_rhs => rw [← List.map_id heap]
    apply List.map_congr_left
    intro b hb
    simp [hf b hb]
  · simp

theorem filter_free_fresh (heap : List (Ptr × String)) (p : Ptr) (hf : ∀ b ∈ heap, b.1 ≠ p) :
    heap.filter (fun b => b.1 != p) = heap := by
  rw [List.filter_eq_self]
  intro b hb
  simp [hf b hb]

theorem lookup_append_fresh (heap : List (Ptr × String)) (p : Ptr) (s : String)
    (hf : ∀ b ∈ heap, b.1 ≠ p) : (heap ++ [(p, s)]).lookup p = some s := by
  induction heap with
  | nil => simp [List.lookup]
  | cons b bs ih =>
    obtain ⟨k, v⟩ := b
    have hk : k ≠ p := hf (k, v) (by simp)
    have hk2 : (p == k) = false := by simp [Ne.symm hk]
    simp only [List.cons_append, List.lookup, hk2]
    exact ih (fun b hb => hf b (by simp [hb]))

/-! ## Lemmas: one iteration, symbolically -/

theorem monitor_envia (st : State) (ssid : String) (hf : ∀ b ∈ st.heap, b.1 ≠ st.nextPtr)
    (hlen : st.filaSSID.length < TAMANHO_FILA) :
    TaskWifiMonitor (some ssid) true st =
      ({ st with filaSSID := st.filaSSID ++ [st.nextPtr], task_monitor_ok := true,
                 heap := st.heap ++ [(st.nextPtr, ssid)], nextPtr := st.nextPtr + 1 },
       [Event.malloc (some st.nextPtr), Event.strcpy st.nextPtr ssid,
        Event.xQueueSend st.nextPtr true,
        Event.printfSSID (LOG_PREFIX ++ "[MONITOR] Conectado a: %s. Enviado para validacao.\n")
          st.nextPtr ssid,
        Event.esp_task_wdt_reset, Event.vTaskDelay PERIODO_VERIFICACAO_WIFI]) := by
  simp only [TaskWifiMonitor, malloc, strcpy, xQueueSend, if_true, hlen, deref,
    map_strcpy_fresh st.heap st.nextPtr ssid "" hf, lookup_append_fresh st.heap st.nextPtr ssid hf,
    Option.getD_some]

theorem monitor_descarta (st : State) (ssid : String) (hf : ∀ b ∈ st.heap, b.1 ≠ st.nextPtr)
    (hlen : ¬ st.filaSSID.length < TAMANHO_FILA) :
    TaskWifiMonitor (some ssid) true st =
      ({ st with nextPtr := st.nextPtr + 1, freed := st.freed ++ [st.nextPtr] },
       [Event.malloc (some st.nextPtr), Event.strcpy st.nextPtr ssid,
        Event.xQueueSend st.nextPtr false,
        Event.printfSSID (LOG_PREFIX ++ "[MONITOR] Fila cheia! SSID %s descartado.\n")
          st.nextPtr ssid,
        Event.free st.nextPtr,
        Event.esp_task_wdt_reset, Event.vTaskDelay PERIODO_VERIFICACAO_WIFI]) := by
  have hfil : (st.heap ++ [(st.nextPtr, ssid)]).filter (fun b => b.1 != st.nextPtr) = st.heap := by
    rw [List.filter_append, filter_free_fresh st.heap st.nextPtr hf]
    simp
  simp only [TaskWifiMonitor, malloc, strcpy, xQueueSend, if_true, hlen, if_false, deref, free,
    map_strcpy_fresh st.heap st.nextPtr ssid "" hf, lookup_append_fresh st.heap st.nextPtr ssid hf,
    Option.getD_some, hfil]

theorem monitor_semMemoria (st : State) (ssid : String) :
    TaskWifiMonitor (some ssid) false st =
      (st, [Event.malloc none,
            Event.printf (LOG_PREFIX ++ "[MONITOR] Falha ao alocar memoria para o SSID!\n"),
            Event.vTaskDelay 1000]) := by
  simp [TaskWifiMonitor, malloc]

theorem monitor_desconectado (st : State) (mallocOk : Bool) :
    TaskWifiMonitor none mallocOk st =
      ({ st with task_monitor_ok := true },
       [Event.printf (LOG_PREFIX ++ "[MONITOR] Nao conectado. Aguardando conexao...\n"),
        Event.esp_task_wdt_reset, Event.vTaskDelay PERIODO_VERIFICACAO_WIFI]) := rfl

theorem validator_recebe (mutexOk : Bool) (st : State) (p : Ptr) (rest : List Ptr)
    (hq : st.filaSSID = p :: rest) :
    TaskWifiValidator mutexOk st =
      ({ st with filaSSID := rest, task_validator_ok := true,
                 heap := st.heap.filter (fun b => b.1 != p), freed := st.freed ++ [p] },
       [Event.xQueueReceive (some p), Event.printfSSID fmtRecebido p (deref st p)]
         ++ (validar mutexOk p (deref st p)).2
         ++ relatar (validar mutexOk p (deref st p)).1 p (deref st p)
         ++ [Event.free p, Event.esp_task_wdt_reset]) := by
  simp only [TaskWifiValidator, xQueueReceive, hq, free, deref]

theorem validator_timeout (mutexOk : Bool) (st : State) (hq : st.filaSSID = []) :
    TaskWifiValidator mutexOk st =
      ({ st with task_validator_ok := true },
       [Event.xQueueReceive none,
        Event.printf (LOG_PREFIX ++ "[VALIDADOR] Timeout! Nao ha SSIDs para validar.\n"),
        Event.esp_task_wdt_reset]) := by
  simp only [TaskWifiValidator, xQueueReceive, hq]

/-! ## Lemmas: the invariant -/

theorem inv_app_main : Inv app_main := by
  simp [Inv, app_main]

theorem Inv.fresco {st : State} (h : Inv st) : ∀ b ∈ st.heap, b.1 ≠ st.nextPtr :=
  fun b hb => Nat.ne_of_lt (h.chave_lt b hb)

theorem Inv.nodup {st : State} (h : Inv st) : (st.freed ++ st.filaSSID).Nodup :=
  h.2.1.nodup_iff.2 (List.nodup_range _)

theorem Inv.frente {st : State} (h : Inv st) {p : Ptr} {rest : List Ptr}
    (hq : st.filaSSID = p :: rest) :
    ∃ s hrest, st.heap = (p, s) :: hrest ∧ hrest.map Prod.fst = rest ∧ deref st p = s ∧
      st.heap.filter (fun b => b.1 != p) = hrest := by
  have h1 := h.1
  rw [hq] at h1
  cases hh : st.heap with
  | nil => rw [hh] at h1; simp at h1
  | cons b hrest =>
    obtain ⟨k, s⟩ := b
    rw [hh] at h1
    simp only [List.map_cons, List.cons.injEq] at h1
    obtain ⟨hk, hr⟩ := h1
    subst hk
    refine ⟨s, hrest, rfl, hr, ?_, ?_⟩
    · simp [deref, hh, List.lookup]
    · have hnd := h.nodup
      rw [hq] at hnd
      have hp : k ∉ rest := by
        have := (List.nodup_append.1 hnd).2.1
        exact (List.nodup_cons.1 this).1
      have hf : ∀ b ∈ hrest, b.1 ≠ k := by
        intro b hb hbk
        apply hp
        rw [← hr, ← hbk]
        exact List.mem_map_of_mem Prod.fst hb
      simp only [List.filter_cons, bne_self_eq_false, Bool.false_eq_true, if_false]
      exact filter_free_fresh hrest k hf

theorem Inv.monitor {st : State} (h : Inv st) (ap_info : Option String) (mallocOk : Bool) :
    Inv (TaskWifiMonitor ap_info mallocOk st).1 := by
  cases ap_info with
  | none => exact h
  | some ssid =>
    cases mallocOk with
    | false => rw [monitor_semMemoria]; exact h
    | true =>
      by_cases hlen : st.filaSSID.length < TAMANHO_FILA
      · rw [monitor_envia st ssid h.fresco hlen]
        refine ⟨?_, ?_, ?_⟩
        · simp [h.1]
        · simp only [List.range_succ, ← List.append_assoc]
          exact List.Perm.append_right _ h.2.1
        · simp only [List.length_append, List.length_singleton]
          exact hlen
      · rw [monitor_descarta st ssid h.fresco hlen]
        refine ⟨h.1, ?_, h.2.2⟩
        simp only [List.range_succ]
        have : (st.freed ++ [st.nextPtr] ++ st.filaSSID).Perm
            (st.freed ++ st.filaSSID ++ [st.nextPtr]) := by
          rw [List.append_assoc, List.append_assoc]
          exact List.Perm.append_left _ List.perm_append_comm
        exact this.trans (List.Perm.append_right _ h.2.1)

theorem Inv.validator {st : State} (h : Inv st) (mutexOk : Bool) :
    Inv (TaskWifiValidator mutexOk st).1 := by
  cases hq : st.filaSSID with
  | nil => rw [validator_timeout mutexOk st hq]; exact ⟨h.1, h.2.1, h.2.2⟩
  | cons p rest =>
    obtain ⟨s, hrest, _, hr, _, hfil⟩ := h.frente hq
    rw [validator_recebe mutexOk st p rest hq]
    refine ⟨?_, ?_, ?_⟩
    · simp only [hfil, hr]
    · have h2 := h.2.1
      rw [hq] at h2
      refine List.Perm.trans ?_ h2
      simp
    · have h3 := h.2.2
      rw [hq] at h3
      simp only [List.length_cons] at h3
      show rest.length ≤ TAMANHO_FILA
      omega

theorem Inv.outra {st : State} (h : Inv st) (o : Outra) : Inv (outra o st).1 := by
  cases o with
  | monitor ap_info mallocOk => exact h.monitor ap_info mallocOk
  | validator mutexOk => exact h.validator mutexOk

theorem Inv.outras (os : List Outra) : ∀ {st : State}, Inv st → Inv (outras os st).1 := by
  induction os with
  | nil => intro st h; exact h
  | cons o os ih => intro st h; exact ih (h.outra o)

theorem Inv.limpaMonitor {st : State} (h : Inv st) :
    Inv { st with task_monitor_ok := false } := h

theorem Inv.limpaValidator {st : State} (h : Inv st) :
    Inv { st with task_validator_ok := false } := h

theorem Inv.supervisor {st : State} (h : Inv st) (e : Entre) : Inv (TaskSupervisor e st).st := by
  have h1 := Inv.outras e.apos137 h
  have h2 := Inv.outras e.apos138 h1
  have h3 := Inv.outras e.em141 h2
  have h4 := Inv.outras e.apos141 h3
  have h5 := Inv.outras e.apos147 h4.limpaMonitor
  exact h5.limpaValidator

theorem Inv.passo {st : State} (h : Inv st) (it : Passo) : Inv (passo it st).1 := by
  cases it with
  | monitor ap_info mallocOk => exact h.monitor ap_info mallocOk
  | validator mutexOk => exact h.validator mutexOk
  | supervisor e => exact h.supervisor e

theorem Inv.executar (its : List Passo) : ∀ {st : State}, Inv st → Inv (executar its st).1 := by
  induction its with
  | nil => intro st h; exact h
  | cons it its ih => intro st h; exact ih (h.passo it)

theorem executar_append (a b : List Passo) : ∀ st : State,
    executar (a ++ b) st =
      ((executar b (executar a st).1).1, (executar a st).2 ++ (executar b (executar a st).1).2) := by
  induction a with
  | nil => intro st; simp [executar]
  | cons it a ih => intro st; simp [executar, ih]

/-! ## Validator: classification -/

theorem validar_true_snd (p : Ptr) (s : String) :
    ∀ ev ∈ (validar true p s).2,
      ev = Event.xSemaphoreTake true ∨ ev = Event.xSemaphoreGive ∨ ∃ j r, ev = Event.strcmp p j r := by
  intro ev hev
  simp only [validar, if_true, List.mem_append, List.mem_singleton] at hev
  rcases hev with (hev | hev) | hev
  · exact Or.inl hev
  · exact Or.inr (Or.inr (varredura_snd p s _ 0 ev hev))
  · exact Or.inr (Or.inl hev)

/-- C1: in a Validator iteration that obtains the mutex, the received SSID `s` is
classified authorized (`redeSegura = true`, the confirmation line is printed, no alert
line is printed) exactly when `s` equals an entry of `listaRedesSeguras`; any other SSID
is classified not authorized and the alert lines naming `s` are printed.  SSIDs that
differ from an entry in letter case only, or are a proper beginning or an extension of
an entry, are not authorized. -/
theorem c1_validator_exact_match (st : State) (p : Ptr) (rest : List Ptr) (s : String)
    (hq : st.filaSSID = p :: rest) (hs : deref st p = s) (hnul : semNul s) :
    ((validar true p s).1 = true ↔ s ∈ listaRedesSeguras) ∧
    (TaskWifiValidator true st).2 =
        [Event.xQueueReceive (some p), Event.printfSSID fmtRecebido p s]
          ++ (validar true p s).2 ++ relatar (validar true p s).1 p s
          ++ [Event.free p, Event.esp_task_wdt_reset] ∧
    (s ∈ listaRedesSeguras →
       Event.printfSSID fmtRedeSegura p s ∈ (TaskWifiValidator true st).2 ∧
       ∀ e ∈ (TaskWifiValidator true st).2, e.isAlerta = false) ∧
    (s ∉ listaRedesSeguras →
       Event.printf fmtAlerta ∈ (TaskWifiValidator true st).2 ∧
       Event.printfSSID fmtAlertaSSID p s ∈ (TaskWifiValidator true st).2 ∧
       ∀ f q t, Event.printfSSID f q t ∈ (TaskWifiValidator true st).2 → f ≠ fmtRedeSegura) ∧
    (validar true p "rede_segura_1").1 = false ∧
    (validar true p "Rede_Segura").1 = false ∧
    (validar true p "Rede_Segura_1x").1 = false := by
  have hev := congrArg Prod.snd (validator_recebe true st p rest hq)
  simp only [hs] at hev
  have hcase : ∀ t : String, semNul t → t ∉ listaRedesSeguras → (validar true p t).1 = false := by
    intro t ht hn
    cases hv : (validar true p t).1 with
    | false => rfl
    | true => exact absurd ((validar_true_fst p t ht).1 hv) hn
  refine ⟨validar_true_fst p s hnul, hev, ?_, ?_, hcase _ (by decide) (by decide),
    hcase _ (by decide) (by decide), hcase _ (by decide) (by decide)⟩
  · intro hin
    have hv : (validar true p s).1 = true := (validar_true_fst p s hnul).2 hin
    rw [hev, hv]
    refine ⟨by simp [relatar], ?_⟩
    intro e he
    simp only [relatar, if_true, List.mem_append, List.mem_cons, List.mem_singleton,
      List.not_mem_nil, or_false] at he
    rcases he with (((he | he) | he) | he) | (he | he)
    · rw [he]; rfl
    · rw [he]; show (fmtRecebido == fmtAlertaSSID) = false; decide
    · rcases validar_true_snd p s e he with h | h | ⟨j, r, h⟩ <;> rw [h] <;> rfl
    · rw [he]; show (fmtRedeSegura == fmtAlertaSSID) = false; decide
    · rw [he]; rfl
    · rw [he]; rfl
  · intro hnin
    have hv : (validar true p s).1 = false := hcase s hnul hnin
    rw [hev, hv]
    refine ⟨by simp [relatar], by simp [relatar], ?_⟩
    intro f q t he
    simp only [relatar, Bool.false_eq_true, if_false, List.mem_append, List.mem_cons,
      List.mem_singleton, List.not_mem_nil, or_false] at he
    rcases he with (((he | he) | he) | he) | (he | he)
    · cases he
    · cases he; decide
    · rcases validar_true_snd p s _ he with h | h | ⟨j, r, h⟩ <;> cases h
    · rcases he with he | he | he | he
      · cases he
      · cases he
      · cases he; decide
      · cases he
    · cases he
    · cases he

/-- Witness of C1: the sample "Rede_Segura_1" sent by the Monitor is confirmed. -/
theorem c1_validator_exact_match_witness :
    Event.printfSSID fmtRedeSegura 0 "Rede_Segura_1" ∈
      (TaskWifiValidator true (TaskWifiMonitor (some "Rede_Segura_1") true app_main).1).2 :=
  ((c1_validator_exact_match (TaskWifiMonitor (some "Rede_Segura_1") true app_main).1 0 []
      "Rede_Segura_1" (by decide) (by decide) (by decide)).2.2.1 (by decide)).1

/-- C2: when the Validator does not obtain the mutex, the received sample (whatever its
SSID) is classified not authorized: `redeSegura` is `false`, no `strcmp` is made, the
mutex-timeout line is printed, and the iteration goes on to print the alert naming the
SSID. -/
theorem c2_lock_timeout_fails_closed (st : State) (p : Ptr) (rest : List Ptr)
    (hq : st.filaSSID = p :: rest) :
    (validar false p (deref st p)).1 = false ∧
    (TaskWifiValidator false st).2 =
      [Event.xQueueReceive (some p),
       Event.printfSSID fmtRecebido p (deref st p),
       Event.xSemaphoreTake false,
       Event.printf (LOG_PREFIX ++ "[VALIDADOR] Timeout ao esperar mutex da lista de redes!\n"),
       Event.printf "**************************************************\n",
       Event.printf fmtAlerta,
       Event.printfSSID fmtAlertaSSID p (deref st p),
       Event.printf "**************************************************\n",
       Event.free p,
       Event.esp_task_wdt_reset] ∧
    (∀ e ∈ (TaskWifiValidator false st).2, e.isStrcmp = false) ∧
    (∀ f q t, Event.printfSSID f q t ∈ (TaskWifiValidator false st).2 → f ≠ fmtRedeSegura) := by
  have hev := congrArg Prod.snd (validator_recebe false st p rest hq)
  have hev2 : (TaskWifiValidator false st).2 =
      [Event.xQueueReceive (some p),
       Event.printfSSID fmtRecebido p (deref st p),
       Event.xSemaphoreTake false,
       Event.printf (LOG_PREFIX ++ "[VALIDADOR] Timeout ao esperar mutex da lista de redes!\n"),
       Event.printf "**************************************************\n",
       Event.printf fmtAlerta,
       Event.printfSSID fmtAlertaSSID p (deref st p),
       Event.printf "**************************************************\n",
       Event.free p,
       Event.esp_task_wdt_reset] := by
    rw [hev]; simp [validar, relatar]
  refine ⟨by simp [validar], hev2, ?_, ?_⟩
  · intro e he
    rw [hev2] at he
    simp only [List.mem_cons, List.mem_singleton, List.not_mem_nil, or_false] at he
    rcases he with he | he | he | he | he | he | he | he | he | he <;> rw [he] <;> rfl
  · intro f q t he
    rw [hev2] at he
    simp only [List.mem_cons, List.mem_singleton, List.not_mem_nil, or_false] at he
    rcases he with he | he | he | he | he | he | he | he | he | he <;> cases he <;> decide

/-- Witness of C2: an allow-listed sample is refused when the mutex is not obtained. -/
theorem c2_lock_timeout_fails_closed_witness :
    (validar false 0
      (deref (TaskWifiMonitor (some "Rede_Segura_1") true app_main).1 0)).1 = false :=
  (c2_lock_timeout_fails_closed (TaskWifiMonitor (some "Rede_Segura_1") true app_main).1 0 []
    (by decide)).1

/-! ## Supervisor -/

theorem monitor_flags (ap_info : Option String) (mallocOk : Bool) (st : State) :
    (st.task_monitor_ok = true → (TaskWifiMonitor ap_info mallocOk st).1.task_monitor_ok = true) ∧
    (TaskWifiMonitor ap_info mallocOk st).1.task_validator_ok = st.task_validator_ok := by
  cases ap_info with
  | none => simp [TaskWifiMonitor]
  | some ssid =>
    cases mallocOk with
    | false => simp [TaskWifiMonitor, malloc]
    | true =>
      by_cases hlen : st.filaSSID.length < TAMANHO_FILA <;>
        simp [TaskWifiMonitor, malloc, strcpy, xQueueSend, hlen, free]

theorem validator_flags (mutexOk : Bool) (st : State) :
    (TaskWifiValidator mutexOk st).1.task_validator_ok = true ∧
    (TaskWifiValidator mutexOk st).1.task_monitor_ok = st.task_monitor_ok := by
  cases hq : st.filaSSID with
  | nil => rw [validator_timeout mutexOk st hq]; simp
  | cons p rest => rw [validator_recebe mutexOk st p rest hq]; simp

theorem outras_monitor_ok (os : List Outra) : ∀ st : State,
    st.task_monitor_ok = true → (outras os st).1.task_monitor_ok = true := by
  induction os with
  | nil => intro st h; exact h
  | cons o os ih =>
    intro st h
    apply ih
    cases o with
    | monitor ap_info mallocOk => exact (monitor_flags ap_info mallocOk st).1 h
    | validator mutexOk => exact (validator_flags mutexOk st).2.trans h

theorem outras_validator_ok (os : List Outra) : ∀ st : State,
    st.task_validator_ok = true → (outras os st).1.task_validator_ok = true := by
  induction os with
  | nil => intro st h; exact h
  | cons o os ih =>
    intro st h
    apply ih
    cases o with
    | monitor ap_info mallocOk => exact (monitor_flags ap_info mallocOk st).2.trans h
    | validator mutexOk => exact (validator_flags mutexOk st).1

theorem outras_semValidator (os : List Outra) : ∀ st : State,
    (∀ o ∈ os, o.ehValidator = false) →
      (outras os st).1.task_validator_ok = st.task_validator_ok := by
  induction os with
  | nil => intro st _; rfl
  | cons o os ih =>
    intro st h
    have ho := h o (List.mem_cons_self _ _)
    rw [outras, ih _ (fun o2 h2 => h o2 (List.mem_cons_of_mem _ h2))]
    cases o with
    | monitor ap_info mallocOk => exact (monitor_flags ap_info mallocOk st).2
    | validator mutexOk => simp [Outra.ehValidator] at ho

theorem outras_semMonitor (os : List Outra) : ∀ st : State,
    (∀ o ∈ os, o.ehMonitor = false) →
      (outras os st).1.task_monitor_ok = st.task_monitor_ok := by
  induction os with
  | nil => intro st _; rfl
  | cons o os ih =>
    intro st h
    have ho := h o (List.mem_cons_self _ _)
    rw [outras, ih _ (fun o2 h2 => h o2 (List.mem_cons_of_mem _ h2))]
    cases o with
    | monitor ap_info mallocOk => simp [Outra.ehMonitor] at ho
    | validator mutexOk => exact (validator_flags mutexOk st).2

theorem supervisor_reset_iff (e : Entre) (st : State) :
    Event.esp_task_wdt_reset ∈ (TaskSupervisor e st).chamadas ↔
      ((e.estado141m st).task_monitor_ok = true ∧ (e.estado141v st).task_validator_ok = true) := by
  simp only [TaskSupervisor, Entre.estado141m, Entre.estado141v]
  cases hm : (outras e.apos138 (outras e.apos137 st).1).1.task_monitor_ok <;>
    cases hv : (outras e.em141 (outras e.apos138 (outras e.apos137 st).1).1).1.task_validator_ok <;>
    simp

/-- C3 as stated fails: a Supervisor iteration that starts with `task_monitor_ok` not set
(and prints FALHA for the Monitor) refreshes the watchdog when a Monitor iteration runs
before line 141; and `task_monitor_ok` is set after the iteration when a Monitor
iteration runs between lines 147 and 148. -/
theorem c3_counterexample :
    (TaskWifiValidator true app_main).1.task_monitor_ok = false ∧
    (TaskWifiValidator true app_main).1.task_validator_ok = true ∧
    Event.printfStr (LOG_PREFIX ++ "[SUPERVISOR] - TaskWifiMonitor: %s\n") "FALHA" ∈
      (TaskSupervisor { Entre.nada with apos138 := [Outra.monitor none true] }
        (TaskWifiValidator true app_main).1).chamadas ∧
    Event.esp_task_wdt_reset ∈
      (TaskSupervisor { Entre.nada with apos138 := [Outra.monitor none true] }
        (TaskWifiValidator true app_main).1).chamadas ∧
    (TaskSupervisor { Entre.nada with apos147 := [Outra.monitor none true] }
      app_main).st.task_monitor_ok = true := by
  decide

/-- C3, amended: a Supervisor iteration calls `esp_task_wdt_reset` exactly when
`task_monitor_ok` and then `task_validator_ok` are set as it reads them at line 141.  If
both are set at the start of the iteration it refreshes; if no iteration of the Monitor
or the Validator falls between the start and those reads, it refreshes exactly when both
are set at the start; if the Validator flag is not set at the start and no Validator
iteration falls before the reads, it does not refresh.  Lines 147-148 then clear the
flags on either branch: `task_validator_ok` is `false` after the iteration, and
`task_monitor_ok` is `false` unless a Monitor iteration ran between the two writes. -/
theorem c3_supervisor_refresh_iff_both_at_decision (e : Entre) (st : State) :
    (Event.esp_task_wdt_reset ∈ (TaskSupervisor e st).chamadas ↔
      ((e.estado141m st).task_monitor_ok = true ∧ (e.estado141v st).task_validator_ok = true)) ∧
    (st.task_monitor_ok = true → st.task_validator_ok = true →
      Event.esp_task_wdt_reset ∈ (TaskSupervisor e st).chamadas) ∧
    ((∀ o ∈ e.apos137 ++ e.apos138, o.ehMonitor = false) →
     (∀ o ∈ e.apos137 ++ e.apos138 ++ e.em141, o.ehValidator = false) →
      (Event.esp_task_wdt_reset ∈ (TaskSupervisor e st).chamadas ↔
        (st.task_monitor_ok = true ∧ st.task_validator_ok = true))) ∧
    (st.task_validator_ok = false →
     (∀ o ∈ e.apos137 ++ e.apos138 ++ e.em141, o.ehValidator = false) →
      Event.esp_task_wdt_reset ∉ (TaskSupervisor e st).chamadas) ∧
    (TaskSupervisor e st).st.task_validator_ok = false ∧
    ((∀ o ∈ e.apos147, o.ehMonitor = false) →
      (TaskSupervisor e st).st.task_monitor_ok = false) := by
  have hv141 : (∀ o ∈ e.apos137 ++ e.apos138 ++ e.em141, o.ehValidator = false) →
      (e.estado141v st).task_validator_ok = st.task_validator_ok := by
    intro h
    simp only [Entre.estado141v, Entre.estado141m]
    rw [outras_semValidator e.em141 _ (fun o ho => h o (by simp [ho])),
      outras_semValidator e.apos138 _ (fun o ho => h o (by simp [ho])),
      outras_semValidator e.apos137 _ (fun o ho => h o (by simp [ho]))]
  have hm141 : (∀ o ∈ e.apos137 ++ e.apos138, o.ehMonitor = false) →
      (e.estado141m st).task_monitor_ok = st.task_monitor_ok := by
    intro h
    simp only [Entre.estado141m]
    rw [outras_semMonitor e.apos138 _ (fun o ho => h o (by simp [ho])),
      outras_semMonitor e.apos137 _ (fun o ho => h o (by simp [ho]))]
  refine ⟨supervisor_reset_iff e st, ?_, ?_, ?_, rfl, ?_⟩
  · intro hm hv
    rw [supervisor_reset_iff]
    refine ⟨?_, ?_⟩
    · exact outras_monitor_ok _ _ (outras_monitor_ok _ _ hm)
    · exact outras_validator_ok _ _ (outras_validator_ok _ _ (outras_validator_ok _ _ hv))
  · intro h1 h2
    rw [supervisor_reset_iff, hm141 h1, hv141 h2]
  · intro hv h2
    rw [supervisor_reset_iff, hv141 h2, hv]
    simp
  · intro h
    show (outras e.apos147 _).1.task_monitor_ok = false
    rw [outras_semMonitor e.apos147 _ h]

/-- Witness of C3, amended: after one Monitor iteration and no Validator iteration the
Supervisor does not refresh the watchdog, whatever the Monitor does meanwhile. -/
theorem c3_supervisor_refresh_iff_both_at_decision_witness :
    Event.esp_task_wdt_reset ∉
      (TaskSupervisor { Entre.nada with apos138 := [Outra.monitor none true] }
        (TaskWifiMonitor none true app_main).1).chamadas :=
  (c3_supervisor_refresh_iff_both_at_decision
    { Entre.nada with apos138 := [Outra.monitor none true] }
    (TaskWifiMonitor none true app_main).1).2.2.2.1 (by decide) (by decide)

/-! ## Monitor: full queue -/

/-- C4: in a Monitor iteration with the device associated and `TAMANHO_FILA` (5) samples in
the queue, the queue is left as it was; when the sample was allocated, `xQueueSend`
fails, the Monitor frees the new block and it is not live afterwards.  Hence after any
sequence of iterations from `app_main` the queue holds at most 5 samples. -/
theorem c4_full_queue_drops_sample :
    (∀ (st : State) (ssid : String) (mallocOk : Bool),
      st.filaSSID.length = TAMANHO_FILA →
        (TaskWifiMonitor (some ssid) mallocOk st).1.filaSSID = st.filaSSID ∧
        (mallocOk = true →
          Event.xQueueSend st.nextPtr false ∈ (TaskWifiMonitor (some ssid) mallocOk st).2 ∧
          (∀ q, Event.xQueueSend q true ∉ (TaskWifiMonitor (some ssid) mallocOk st).2) ∧
          Event.free st.nextPtr ∈ (TaskWifiMonitor (some ssid) mallocOk st).2 ∧
          (TaskWifiMonitor (some ssid) mallocOk st).1.freed = st.freed ++ [st.nextPtr] ∧
          ∀ b ∈ (TaskWifiMonitor (some ssid) mallocOk st).1.heap, b.1 ≠ st.nextPtr)) ∧
    (∀ its : List Passo, (executar its app_main).1.filaSSID.length ≤ TAMANHO_FILA) := by
  refine ⟨?_, fun its => (Inv.executar its inv_app_main).2.2⟩
  intro st ssid mallocOk hlen
  cases mallocOk with
  | false => simp [TaskWifiMonitor, malloc]
  | true =>
    have hn : ¬ st.filaSSID.length < TAMANHO_FILA := by omega
    simp [TaskWifiMonitor, malloc, strcpy, xQueueSend, hn, free]

/-- Witness of C4: the sixth sample in a row is dropped and the queue keeps its five. -/
theorem c4_full_queue_drops_sample_witness :
    (TaskWifiMonitor (some "Rede_Segura_1") true
      (executar (List.replicate 5 (Passo.monitor (some "Laboratorio_Dev") true)) app_main).1).1.filaSSID
      = [0, 1, 2, 3, 4] :=
  (c4_full_queue_drops_sample.1
    (executar (List.replicate 5 (Passo.monitor (some "Laboratorio_Dev") true)) app_main).1
    "Rede_Segura_1" true (by decide)).1.trans (by decide)

/-- C5 as stated fails: with five samples queued and `task_monitor_ok` cleared by the
Supervisor, a Monitor iteration whose send fails leaves `task_monitor_ok` at `false`. -/
theorem c5_counterexample :
    (executar (List.replicate 5 (Passo.monitor (some "Rede_Segura_1") true) ++ [Passo.supervisor Entre.nada])
        app_main).1.filaSSID.length = TAMANHO_FILA ∧
    (executar (List.replicate 5 (Passo.monitor (some "Rede_Segura_1") true) ++ [Passo.supervisor Entre.nada])
        app_main).1.task_monitor_ok = false ∧
    Event.xQueueSend 5 false ∈ (TaskWifiMonitor (some "Rede_Segura_1") true
      (executar (List.replicate 5 (Passo.monitor (some "Rede_Segura_1") true) ++ [Passo.supervisor Entre.nada])
        app_main).1).2 ∧
    (TaskWifiMonitor (some "Rede_Segura_1") true
      (executar (List.replicate 5 (Passo.monitor (some "Rede_Segura_1") true) ++ [Passo.supervisor Entre.nada])
        app_main).1).1.task_monitor_ok = false := by
  decide

/-- C5, amended: in a Monitor iteration with the device associated, the sample allocated
and the queue full, the Monitor frees the sample and leaves `task_monitor_ok` as it was
at the start of the iteration. -/
theorem c5_full_queue_keeps_flag (st : State) (ssid : String)
    (hlen : st.filaSSID.length = TAMANHO_FILA) :
    Event.xQueueSend st.nextPtr false ∈ (TaskWifiMonitor (some ssid) true st).2 ∧
    Event.free st.nextPtr ∈ (TaskWifiMonitor (some ssid) true st).2 ∧
    (TaskWifiMonitor (some ssid) true st).1.task_monitor_ok = st.task_monitor_ok ∧
    (TaskWifiMonitor (some ssid) true st).1.task_validator_ok = st.task_validator_ok := by
  have hn : ¬ st.filaSSID.length < TAMANHO_FILA := by omega
  simp [TaskWifiMonitor, malloc, strcpy, xQueueSend, hn, free]

/-- Witness of C5, amended: a set flag stays set when the sixth sample is dropped. -/
theorem c5_full_queue_keeps_flag_witness :
    (TaskWifiMonitor (some "Rede_Segura_1") true
      (executar (List.replicate 5 (Passo.monitor (some "Laboratorio_Dev") true)) app_main).1).1.task_monitor_ok
      = true :=
  (c5_full_queue_keeps_flag
    (executar (List.replicate 5 (Passo.monitor (some "Laboratorio_Dev") true)) app_main).1
    "Rede_Segura_1" (by decide)).2.2.1.trans (by decide)

/-! ## Per-task keep-alive -/

/-- C7 as stated fails: the Monitor iteration whose `malloc` fails leaves the loop body by
`continue` without calling `esp_task_wdt_reset`, and the Supervisor iteration in which
the Validator flag is not set does not call it either. -/
theorem c7_counterexample :
    Event.esp_task_wdt_reset ∉ (TaskWifiMonitor (some "Rede_Segura_1") false app_main).2 ∧
    (TaskWifiMonitor none true app_main).1.task_monitor_ok = true ∧
    (TaskWifiMonitor none true app_main).1.task_validator_ok = false ∧
    Event.esp_task_wdt_reset ∉
      (TaskSupervisor Entre.nada (TaskWifiMonitor none true app_main).1).chamadas := by
  decide

/-- C7, amended: every Validator iteration calls `esp_task_wdt_reset`; every Monitor
iteration in which the device is not associated, or is associated and the sample is
allocated, calls it; a Supervisor iteration calls it exactly when `task_monitor_ok` and
then `task_validator_ok` are set as it reads them at line 141. -/
theorem c7_keepalive_by_branch :
    (∀ (mutexOk : Bool) (st : State),
      Event.esp_task_wdt_reset ∈ (TaskWifiValidator mutexOk st).2) ∧
    (∀ (ssid : String) (st : State),
      Event.esp_task_wdt_reset ∈ (TaskWifiMonitor (some ssid) true st).2) ∧
    (∀ (mallocOk : Bool) (st : State),
      Event.esp_task_wdt_reset ∈ (TaskWifiMonitor none mallocOk st).2) ∧
    (∀ (e : Entre) (st : State),
      Event.esp_task_wdt_reset ∈ (TaskSupervisor e st).chamadas ↔
        ((e.estado141m st).task_monitor_ok = true ∧
          (e.estado141v st).task_validator_ok = true)) := by
  refine ⟨?_, ?_, ?_, fun e st => supervisor_reset_iff e st⟩
  · intro mutexOk st
    cases hq : st.filaSSID with
    | nil => rw [validator_timeout mutexOk st hq]; simp
    | cons p rest => rw [validator_recebe mutexOk st p rest hq]; simp
  · intro ssid st
    by_cases hlen : st.filaSSID.length < TAMANHO_FILA <;>
      simp [TaskWifiMonitor, malloc, strcpy, xQueueSend, hlen]
  · intro mallocOk st
    simp [TaskWifiMonitor]

/-! ## Validator liveness -/

/-- C8: after every Validator iteration `task_validator_ok` is set, whatever it was
before: when a sample was received (mutex obtained or not, SSID listed or not) and when
the receive timed out; the iteration whose receive timed out changes nothing else, so
the queue is as it was. -/
theorem c8_validator_marks_liveness (mutexOk : Bool) (st : State) :
    (TaskWifiValidator mutexOk st).1.task_validator_ok = true ∧
    (st.filaSSID = [] →
      Event.xQueueReceive none ∈ (TaskWifiValidator mutexOk st).2 ∧
      (TaskWifiValidator mutexOk st).1 = { st with task_validator_ok := true } ∧
      (TaskWifiValidator mutexOk st).1.filaSSID = st.filaSSID) ∧
    (∀ p rest, st.filaSSID = p :: rest →
      Event.xQueueReceive (some p) ∈ (TaskWifiValidator mutexOk st).2) := by
  cases hq : st.filaSSID with
  | nil => rw [validator_timeout mutexOk st hq]; simp [hq]
  | cons p rest => rw [validator_recebe mutexOk st p rest hq]; simp

/-- Witness of C8: the receive times out on the empty queue of `app_main`. -/
theorem c8_validator_marks_liveness_witness :
    (TaskWifiValidator true app_main).1 = { app_main with task_validator_ok := true } :=
  ((c8_validator_marks_liveness true app_main).2.1 (by decide)).2.1

/-! ## Lemmas: what the iterations send, receive, write and free -/

theorem validar_relatar_obs (mutexOk b : Bool) (p : Ptr) (s : String) :
    ∀ e ∈ (validar mutexOk p s).2 ++ relatar b p s,
      e.enviado = none ∧ e.recebido = none ∧ e.escrito = none ∧ e.lido = none ∧
      e.alocado = none ∧ e.liberado = none := by
  intro e he
  have hl1 : (fmtRedeSegura = fmtRecebido) = False := by decide
  have hl2 : (fmtAlertaSSID = fmtRecebido) = False := by decide
  rw [List.mem_append] at he
  rcases he with he | he
  · cases mutexOk with
    | true =>
      rcases validar_true_snd p s e he with h | h | ⟨j, r, h⟩ <;> rw [h] <;>
        simp [Event.enviado, Event.recebido, Event.escrito, Event.lido, Event.alocado,
          Event.liberado]
    | false =>
      simp only [validar, Bool.false_eq_true, if_false, List.mem_cons, List.mem_singleton,
        List.not_mem_nil, or_false] at he
      rcases he with h | h <;> rw [h] <;>
        simp [Event.enviado, Event.recebido, Event.escrito, Event.lido, Event.alocado,
          Event.liberado]
  · cases b with
    | true =>
      simp only [relatar, if_true, List.mem_singleton] at he
      rw [he]
      simp [Event.enviado, Event.recebido, Event.escrito, Event.lido, Event.alocado,
        Event.liberado, hl1]
    | false =>
      simp only [relatar, Bool.false_eq_true, if_false, List.mem_cons, List.mem_singleton,
        List.not_mem_nil, or_false] at he
      rcases he with h | h | h | h <;> rw [h] <;>
        simp [Event.enviado, Event.recebido, Event.escrito, Event.lido, Event.alocado,
          Event.liberado, hl2]

theorem filterMap_validar_relatar {α : Type} (f : Event → Option α) (mutexOk b : Bool) (p : Ptr)
    (s : String) (hf : ∀ e ∈ (validar mutexOk p s).2 ++ relatar b p s, f e = none)
    (pre post : List Event) :
    (pre ++ (validar mutexOk p s).2 ++ relatar b p s ++ post).filterMap f =
      pre.filterMap f ++ post.filterMap f := by
  have h0 : ((validar mutexOk p s).2 ++ relatar b p s).filterMap f = [] :=
    List.filterMap_eq_nil_iff.2 hf
  rw [List.append_assoc pre, List.filterMap_append, List.filterMap_append, h0, List.append_nil]

/-- Observations on the calls of a Validator iteration that receives block `p`. -/
theorem validator_recebe_obs (mutexOk : Bool) (st : State) (p : Ptr) (rest : List Ptr)
    (hq : st.filaSSID = p :: rest) :
    enviados (TaskWifiValidator mutexOk st).2 = [] ∧
    recebidos (TaskWifiValidator mutexOk st).2 = [p] ∧
    escritos (TaskWifiValidator mutexOk st).2 = [] ∧
    lidos (TaskWifiValidator mutexOk st).2 = [(p, deref st p)] ∧
    alocados (TaskWifiValidator mutexOk st).2 = [] ∧
    liberados (TaskWifiValidator mutexOk st).2 = [p] := by
  have hev := congrArg Prod.snd (validator_recebe mutexOk st p rest hq)
  simp only at hev
  have hobs := validar_relatar_obs mutexOk (validar mutexOk p (deref st p)).1 p (deref st p)
  refine ⟨?_, ?_, ?_, ?_, ?_, ?_⟩
  · rw [enviados, hev, filterMap_validar_relatar _ _ _ _ _ (fun e he => (hobs e he).1)]
    simp [Event.enviado]
  · rw [recebidos, hev, filterMap_validar_relatar _ _ _ _ _ (fun e he => (hobs e he).2.1)]
    simp [Event.recebido]
  · rw [escritos, hev, filterMap_validar_relatar _ _ _ _ _ (fun e he => (hobs e he).2.2.1)]
    simp [Event.escrito]
  · rw [lidos, hev, filterMap_validar_relatar _ _ _ _ _ (fun e he => (hobs e he).2.2.2.1)]
    simp [Event.lido]
  · rw [alocados, hev, filterMap_validar_relatar _ _ _ _ _ (fun e he => (hobs e he).2.2.2.2.1)]
    simp [Event.alocado]
  · rw [liberados, hev, filterMap_validar_relatar _ _ _ _ _ (fun e he => (hobs e he).2.2.2.2.2)]
    simp [Event.liberado]

/-- What one iteration of the Monitor or the Validator adds to the observations, from a
well-formed state. -/
theorem outra_obs {st : State} (h : Inv st) (it : Outra) :
    st.filaSSID ++ enviados (outra it st).2 = recebidos (outra it st).2 ++ (outra it st).1.filaSSID ∧
    (lidos (outra it st).2).map Prod.fst = recebidos (outra it st).2 ∧
    (∀ b ∈ lidos (outra it st).2, b ∈ st.heap) ∧
    (∀ b ∈ (outra it st).1.heap, b ∈ st.heap ∨ b ∈ escritos (outra it st).2) ∧
    List.range st.nextPtr ++ (escritos (outra it st).2).map Prod.fst
      = List.range (outra it st).1.nextPtr ∧
    List.range st.nextPtr ++ alocados (outra it st).2 = List.range (outra it st).1.nextPtr ∧
    (outra it st).1.freed = st.freed ++ liberados (outra it st).2 := by
  cases it with
  | validator mutexOk =>
    simp only [outra]
    cases hq : st.filaSSID with
    | nil =>
      rw [validator_timeout mutexOk st hq]
      simp [enviados, recebidos, lidos, escritos, alocados, liberados, hq,
        Event.enviado, Event.recebido, Event.lido, Event.escrito, Event.alocado, Event.liberado]
    | cons p rest =>
      obtain ⟨s, hrest, hheap, hr, hd, hfil⟩ := h.frente hq
      obtain ⟨o1, o2, o3, o4, o5, o6⟩ := validator_recebe_obs mutexOk st p rest hq
      rw [o1, o2, o3, o4, o5, o6]
      rw [validator_recebe mutexOk st p rest hq]
      simp only [hfil, hd]
      rw [hheap]
      simp
      intro a b hab
      exact Or.inr hab
  | monitor ap_info mallocOk =>
    simp only [outra]
    cases ap_info with
    | none =>
      simp [TaskWifiMonitor, enviados, recebidos, lidos, escritos, alocados, liberados,
        Event.enviado, Event.recebido, Event.lido, Event.escrito, Event.alocado, Event.liberado]
    | some ssid =>
      cases mallocOk with
      | false =>
        rw [monitor_semMemoria]
        simp [enviados, recebidos, lidos, escritos, alocados, liberados,
          Event.enviado, Event.recebido, Event.lido, Event.escrito, Event.alocado, Event.liberado]
      | true =>
        have hl : ((LOG_PREFIX ++ "[MONITOR] Conectado a: %s. Enviado para validacao.\n")
            = fmtRecebido) = False := by decide
        have hl2 : ((LOG_PREFIX ++ "[MONITOR] Fila cheia! SSID %s descartado.\n")
            = fmtRecebido) = False := by decide
        by_cases hlen : st.filaSSID.length < TAMANHO_FILA
        · rw [monitor_envia st ssid h.fresco hlen]
          simp [enviados, recebidos, lidos, escritos, alocados, liberados, List.range_succ,
            Event.enviado, Event.recebido, Event.lido, Event.escrito, Event.alocado,
            Event.liberado, hl]
        · rw [monitor_descarta st ssid h.fresco hlen]
          simp [enviados, recebidos, lidos, escritos, alocados, liberados, List.range_succ,
            Event.enviado, Event.recebido, Event.lido, Event.escrito, Event.alocado,
            Event.liberado, hl2]
          intro a b hab
          exact Or.inl hab

/-! ## Lemmas: composing observations -/

theorem Liga.trans {a b c : State} {t1 t2 : List Event} (h1 : Liga a t1 b) (h2 : Liga b t2 c) :
    Liga a (t1 ++ t2) c := by
  obtain ⟨s1, s2, s3, s4, s5, s6, s7⟩ := h1
  obtain ⟨r1, r2, r3, r4, r5, r6, r7⟩ := h2
  unfold Liga
  simp only [enviados, recebidos, lidos, escritos, alocados, liberados,
    List.filterMap_append, List.map_append] at *
  refine ⟨?_, ?_, ?_, ?_, ?_, ?_, ?_⟩
  · rw [← List.append_assoc, s1, List.append_assoc, r1, List.append_assoc]
  · rw [s2, r2]
  · intro x hx
    rcases List.mem_append.1 hx with hx | hx
    · rcases s3 x hx with hx | hx
      · exact Or.inl hx
      · exact Or.inr (List.mem_append_left _ hx)
    · rcases r3 x hx with hx | hx
      · rcases s4 x hx with hx | hx
        · exact Or.inl hx
        · exact Or.inr (List.mem_append_left _ hx)
      · exact Or.inr (List.mem_append_right _ hx)
  · intro x hx
    rcases r4 x hx with hx | hx
    · rcases s4 x hx with hx | hx
      · exact Or.inl hx
      · exact Or.inr (List.mem_append_left _ hx)
    · exact Or.inr (List.mem_append_right _ hx)
  · rw [← List.append_assoc, s5, r5]
  · rw [← List.append_assoc, s6, r6]
  · rw [r7, s7, List.append_assoc]

/-- Calls that send, receive, write, read, allocate and free nothing. -/
theorem Liga.neutro (st : State) (tr : List Event)
    (h : ∀ e ∈ tr, e.enviado = none ∧ e.recebido = none ∧ e.escrito = none ∧ e.lido = none ∧
      e.alocado = none ∧ e.liberado = none) : Liga st tr st := by
  have h1 : enviados tr = [] := List.filterMap_eq_nil_iff.2 (fun e he => (h e he).1)
  have h2 : recebidos tr = [] := List.filterMap_eq_nil_iff.2 (fun e he => (h e he).2.1)
  have h3 : escritos tr = [] := List.filterMap_eq_nil_iff.2 (fun e he => (h e he).2.2.1)
  have h4 : lidos tr = [] := List.filterMap_eq_nil_iff.2 (fun e he => (h e he).2.2.2.1)
  have h5 : alocados tr = [] := List.filterMap_eq_nil_iff.2 (fun e he => (h e he).2.2.2.2.1)
  have h6 : liberados tr = [] := List.filterMap_eq_nil_iff.2 (fun e he => (h e he).2.2.2.2.2)
  refine ⟨by rw [h1, h2]; simp, by rw [h4, h2]; rfl, by rw [h4]; simp,
    fun b hb => Or.inl hb, by rw [h3]; simp, by rw [h5]; simp, by rw [h6]; simp⟩

theorem outra_liga {st : State} (h : Inv st) (o : Outra) :
    Liga st (outra o st).2 (outra o st).1 := by
  obtain ⟨s1, s2, s3, s4, s5, s6, s7⟩ := outra_obs h o
  exact ⟨s1, s2, fun b hb => Or.inl (s3 b hb), s4, s5, s6, s7⟩

theorem outras_liga (os : List Outra) : ∀ {st : State}, Inv st →
    Liga st (outras os st).2 (outras os st).1 := by
  induction os with
  | nil => intro st _; exact Liga.neutro st [] (by simp)
  | cons o os ih => intro st h; exact (outra_liga h o).trans (ih (h.outra o))

theorem Liga.semFlagMonitor {a b : State} {t : List Event} (h : Liga a t b) :
    Liga a t { b with task_monitor_ok := false } := h

theorem Liga.semFlagValidator {a b : State} {t : List Event} (h : Liga a t b) :
    Liga a t { b with task_validator_ok := false } := h

theorem supervisor_liga {st : State} (h : Inv st) (e : Entre) :
    Liga st (TaskSupervisor e st).todas (TaskSupervisor e st).st := by
  have h1 := Inv.outras e.apos137 h
  have h2 := Inv.outras e.apos138 h1
  have h3 := Inv.outras e.em141 h2
  have h4 := Inv.outras e.apos141 h3
  have l1 := outras_liga e.apos137 h
  have l2 := outras_liga e.apos138 h1
  have l3 := outras_liga e.em141 h2
  have l4 := (outras_liga e.apos141 h3).semFlagMonitor
  have l5 := (outras_liga e.apos147 h4.limpaMonitor).semFlagValidator
  simp only [TaskSupervisor]
  refine Liga.trans (Liga.neutro _ _ ?_) (Liga.trans l1 (Liga.trans (Liga.neutro _ _ ?_)
    (Liga.trans l2 (Liga.trans l3 (Liga.trans (Liga.neutro _ _ ?_) (Liga.trans l4
      (Liga.trans l5 (Liga.semFlagValidator (Liga.neutro _ _ ?_)))))))))
  · intro ev hev
    simp only [List.mem_cons, List.mem_singleton, List.not_mem_nil, or_false] at hev
    rcases hev with hev | hev | hev <;> rw [hev] <;>
      simp [Event.enviado, Event.recebido, Event.escrito, Event.lido, Event.alocado,
        Event.liberado]
  · intro ev hev
    simp only [List.mem_cons, List.mem_singleton, List.not_mem_nil, or_false] at hev
    rcases hev with hev | hev <;> rw [hev] <;>
      simp [Event.enviado, Event.recebido, Event.escrito, Event.lido, Event.alocado,
        Event.liberado]
  · intro ev hev
    split at hev <;>
      (simp only [List.mem_singleton] at hev
       rw [hev]
       simp [Event.enviado, Event.recebido, Event.escrito, Event.lido, Event.alocado,
         Event.liberado])
  · intro ev hev
    simp only [List.mem_singleton] at hev
    rw [hev]
    simp [Event.enviado, Event.recebido, Event.escrito, Event.lido, Event.alocado,
      Event.liberado]

theorem passo_liga {st : State} (h : Inv st) (it : Passo) :
    Liga st (passo it st).2 (passo it st).1 := by
  cases it with
  | monitor ap_info mallocOk => exact outra_liga h (Outra.monitor ap_info mallocOk)
  | validator mutexOk => exact outra_liga h (Outra.validator mutexOk)
  | supervisor e => exact supervisor_liga h e

theorem executar_liga (its : List Passo) : ∀ {st : State}, Inv st →
    Liga st (executar its st).2 (executar its st).1 := by
  induction its with
  | nil => intro st _; exact Liga.neutro st [] (by simp)
  | cons it its ih => intro st h; exact (passo_liga h it).trans (ih (h.passo it))

/-- What a run adds to the observations, from a well-formed state. -/
theorem executar_obs (its : List Passo) : ∀ {st : State}, Inv st →
    st.filaSSID ++ enviados (executar its st).2
      = recebidos (executar its st).2 ++ (executar its st).1.filaSSID ∧
    (lidos (executar its st).2).map Prod.fst = recebidos (executar its st).2 ∧
    (∀ b ∈ lidos (executar its st).2, b ∈ st.heap ∨ b ∈ escritos (executar its st).2) ∧
    List.range st.nextPtr ++ (escritos (executar its st).2).map Prod.fst
      = List.range (executar its st).1.nextPtr ∧
    List.range st.nextPtr ++ alocados (executar its st).2
      = List.range (executar its st).1.nextPtr ∧
    (executar its st).1.freed = st.freed ++ liberados (executar its st).2 := by
  intro st h
  obtain ⟨r1, r2, r3, _, r5, r6, r7⟩ := executar_liga its h
  exact ⟨r1, r2, r3, r5, r6, r7⟩

/-! ## Ownership of samples -/

/-- C9: after any sequence of completed iterations from `app_main`, the blocks allocated
by the Monitor are `0 .. nextPtr - 1`, one per successful `malloc`; each of them is
either in the queue (once, live, never passed to `free`) or not in the queue, not live,
and passed to `free` exactly once; blocks never allocated are in neither; the live
blocks are exactly the queued ones (nothing leaked).  The Validator frees the block it
received whether or not it obtained the mutex; the Monitor frees its block when the
send fails. -/
theorem c9_each_sample_queued_or_freed_once (its : List Passo) :
    alocados (executar its app_main).2 = List.range (executar its app_main).1.nextPtr ∧
    liberados (executar its app_main).2 = (executar its app_main).1.freed ∧
    (∀ p ∈ alocados (executar its app_main).2,
      ((executar its app_main).1.filaSSID.count p = 1 ∧
        (liberados (executar its app_main).2).count p = 0 ∧
        p ∈ (executar its app_main).1.heap.map Prod.fst) ∨
      ((executar its app_main).1.filaSSID.count p = 0 ∧
        (liberados (executar its app_main).2).count p = 1 ∧
        p ∉ (executar its app_main).1.heap.map Prod.fst)) ∧
    (∀ p, p ∉ alocados (executar its app_main).2 →
      p ∉ (executar its app_main).1.filaSSID ∧ p ∉ liberados (executar its app_main).2) ∧
    (executar its app_main).1.heap.map Prod.fst = (executar its app_main).1.filaSSID ∧
    (∀ (mutexOk : Bool) (st : State) (p : Ptr) (rest : List Ptr), st.filaSSID = p :: rest →
      liberados (TaskWifiValidator mutexOk st).2 = [p]) ∧
    (∀ (ssid : String) (st : State), Inv st →
      liberados (TaskWifiMonitor (some ssid) true st).2 =
        if st.filaSSID.length < TAMANHO_FILA then [] else [st.nextPtr]) := by
  have hinv := Inv.executar its inv_app_main
  obtain ⟨_, _, _, _, r6, r7⟩ := executar_obs its inv_app_main
  have ha : alocados (executar its app_main).2 = List.range (executar its app_main).1.nextPtr := by
    simpa [app_main] using r6
  have hl : liberados (executar its app_main).2 = (executar its app_main).1.freed := by
    simpa [app_main] using r7.symm
  have hnd := hinv.nodup
  have hperm := hinv.2.1
  refine ⟨ha, hl, ?_, ?_, hinv.1, ?_, ?_⟩
  · intro p hp
    rw [ha] at hp
    rw [hl, hinv.1]
    have hmem : p ∈ (executar its app_main).1.freed ++ (executar its app_main).1.filaSSID :=
      hperm.mem_iff.2 hp
    have hcount : ((executar its app_main).1.freed ++ (executar its app_main).1.filaSSID).count p = 1 :=
      List.count_eq_one_of_mem hnd hmem
    rw [List.count_append] at hcount
    by_cases hq : p ∈ (executar its app_main).1.filaSSID
    · left
      have h1 : 0 < (executar its app_main).1.filaSSID.count p := List.count_pos_iff.2 hq
      exact ⟨by omega, by omega, hq⟩
    · right
      have h0 : (executar its app_main).1.filaSSID.count p = 0 := List.count_eq_zero.2 hq
      exact ⟨h0, by omega, hq⟩
  · intro p hp
    rw [ha] at hp
    rw [hl]
    have hnot : p ∉ (executar its app_main).1.freed ++ (executar its app_main).1.filaSSID :=
      fun hm => hp (hperm.mem_iff.1 hm)
    exact ⟨fun hq => hnot (List.mem_append_right _ hq), fun hf => hnot (List.mem_append_left _ hf)⟩
  · intro mutexOk st p rest hq
    exact (validator_recebe_obs mutexOk st p rest hq).2.2.2.2.2
  · intro ssid st h
    by_cases hlen : st.filaSSID.length < TAMANHO_FILA
    · rw [monitor_envia st ssid h.fresco hlen]
      simp [liberados, Event.liberado, hlen]
    · rw [monitor_descarta st ssid h.fresco hlen]
      simp [liberados, Event.liberado, hlen]

/-- Witness of C9: of seven samples captured with one Validator iteration in between,
block 0 was freed by the Validator, block 6 by the Monitor, and five are queued. -/
theorem c9_each_sample_queued_or_freed_once_witness :
    liberados (executar (monitores ["a", "b", "c"] ++ validadores [false]
      ++ monitores ["d", "e", "f", "g"]) app_main).2 = [0, 6] ∧
    (executar (monitores ["a", "b", "c"] ++ validadores [false]
      ++ monitores ["d", "e", "f", "g"]) app_main).1.filaSSID = [1, 2, 3, 4, 5] :=
  ⟨(c9_each_sample_queued_or_freed_once (monitores ["a", "b", "c"] ++ validadores [false]
      ++ monitores ["d", "e", "f", "g"])).2.1.trans (by decide), by decide⟩

/-- C10 fails on the code: in the Monitor iteration whose send succeeds, line 67 prints
the SSID through `ssid_conectado` after `xQueueSend` has handed the block to the queue,
so the ownership check of the iteration fails. -/
theorem c10_monitor_reads_after_send :
    (TaskWifiMonitor (some "Rede_Segura_1") true app_main).2 =
      [Event.malloc (some 0),
       Event.strcpy 0 "Rede_Segura_1",
       Event.xQueueSend 0 true,
       Event.printfSSID "[WIFI_MONITOR] [MONITOR] Conectado a: %s. Enviado para validacao.\n"
         0 "Rede_Segura_1",
       Event.esp_task_wdt_reset,
       Event.vTaskDelay 4000] ∧
    acessosEmPosse [] (TaskWifiMonitor (some "Rede_Segura_1") true app_main).2 = false ∧
    acessosEmPosse [] [Event.malloc (some 0), Event.strcpy 0 "Rede_Segura_1",
      Event.xQueueSend 0 true] = true := by
  decide

/-! ## Lemmas: a burst of samples, then the Validator -/

theorem executar_singleton (it : Passo) (st : State) :
    executar [it] st = ((passo it st).1, (passo it st).2) := by
  simp [executar]

theorem monitores_estado (ssids : List String) :
    (executar (monitores ssids) app_main).1.filaSSID
      = (List.range ssids.length).take TAMANHO_FILA ∧
    (executar (monitores ssids) app_main).1.heap
      = ((List.range ssids.length).zip ssids).take TAMANHO_FILA ∧
    (executar (monitores ssids) app_main).1.nextPtr = ssids.length ∧
    (executar (monitores ssids) app_main).1.freed
      = (List.range ssids.length).drop TAMANHO_FILA ∧
    lidos (executar (monitores ssids) app_main).2 = [] ∧
    recebidos (executar (monitores ssids) app_main).2 = [] := by
  induction ssids using List.reverseRecOn with
  | nil => simp [monitores, executar, app_main, lidos, recebidos]
  | append_singleton l a ih =>
    obtain ⟨i1, i2, i3, i4, i5, i6⟩ := ih
    have hinv : Inv (executar (monitores l) app_main).1 := Inv.executar _ inv_app_main
    have hmap : monitores (l ++ [a]) = monitores l ++ [Passo.monitor (some a) true] := by
      simp [monitores]
    have hl : ((LOG_PREFIX ++ "[MONITOR] Conectado a: %s. Enviado para validacao.\n")
        = fmtRecebido) = False := by decide
    have hl2 : ((LOG_PREFIX ++ "[MONITOR] Fila cheia! SSID %s descartado.\n")
        = fmtRecebido) = False := by decide
    have hlenq : (executar (monitores l) app_main).1.filaSSID.length = min TAMANHO_FILA l.length := by
      rw [i1]; simp
    rw [hmap, executar_append, executar_singleton]
    simp only [passo, List.length_append, List.length_singleton, List.range_succ]
    by_cases hn : l.length < TAMANHO_FILA
    · have hlen : (executar (monitores l) app_main).1.filaSSID.length < TAMANHO_FILA := by
        rw [hlenq]; omega
      rw [monitor_envia _ a hinv.fresco hlen]
      simp only [i1, i2, i3, i4]
      have hz : (List.range l.length ++ [l.length]).zip (l ++ [a])
          = (List.range l.length).zip l ++ [(l.length, a)] := by
        rw [List.zip_append (by simp)]; simp
      have t1 : (List.range l.length).take TAMANHO_FILA = List.range l.length :=
        List.take_of_length_le (by simp; omega)
      have t2 : (List.range l.length ++ [l.length]).take TAMANHO_FILA
          = List.range l.length ++ [l.length] :=
        List.take_of_length_le (by simp; omega)
      have t3 : ((List.range l.length).zip l).take TAMANHO_FILA = (List.range l.length).zip l :=
        List.take_of_length_le (by simp; omega)
      have t4 : ((List.range l.length).zip l ++ [(l.length, a)]).take TAMANHO_FILA
          = (List.range l.length).zip l ++ [(l.length, a)] :=
        List.take_of_length_le (by simp; omega)
      have d1 : (List.range l.length).drop TAMANHO_FILA = [] :=
        List.drop_of_length_le (by simp; omega)
      have d2 : (List.range l.length ++ [l.length]).drop TAMANHO_FILA = [] :=
        List.drop_of_length_le (by simp; omega)
      refine ⟨?_, ?_, trivial, ?_, ?_, ?_⟩
      · rw [t1, t2]
      · rw [hz, t3, t4]
      · rw [d1, d2]
      · simp [lidos, Event.lido, hl] at i5 ⊢; exact i5
      · simp [recebidos, Event.recebido] at i6 ⊢; exact i6
    · have hlen : ¬ (executar (monitores l) app_main).1.filaSSID.length < TAMANHO_FILA := by
        rw [hlenq]; omega
      rw [monitor_descarta _ a hinv.fresco hlen]
      simp only [i1, i2, i3, i4]
      have hz : (List.range l.length ++ [l.length]).zip (l ++ [a])
          = (List.range l.length).zip l ++ [(l.length, a)] := by
        rw [List.zip_append (by simp)]; simp
      refine ⟨?_, ?_, trivial, ?_, ?_, ?_⟩
      · rw [List.take_append_of_le_length (by simp; omega)]
      · rw [hz, List.take_append_of_le_length (by simp; omega)]
      · rw [List.drop_append_of_le_length (by simp; omega)]
      · simp [lidos, Event.lido, hl2] at i5 ⊢; exact i5
      · simp [recebidos, Event.recebido] at i6 ⊢; exact i6

theorem validadores_lidos (mutexOks : List Bool) : ∀ {st : State}, Inv st →
    lidos (executar (validadores mutexOks) st).2 = st.heap.take mutexOks.length := by
  induction mutexOks with
  | nil => intro st _; simp [validadores, executar, lidos]
  | cons ok oks ih =>
    intro st h
    have ih2 := ih (h.validator ok)
    simp only [validadores, List.map_cons, executar, passo, List.length_cons] at ih2 ⊢
    rw [lidos, List.filterMap_append]
    simp only [lidos] at ih2
    rw [ih2]
    cases hq : st.filaSSID with
    | nil =>
      have hh : st.heap = [] := by
        have := h.1; rw [hq] at this; simpa using this
      rw [validator_timeout ok st hq]
      simp [hh, Event.lido]
    | cons p rest =>
      obtain ⟨s, hrest, hheap, _, hd, hfil⟩ := h.frente hq
      have hl := (validator_recebe_obs ok st p rest hq).2.2.2.1
      simp only [lidos] at hl
      rw [hl, validator_recebe ok st p rest hq]
      simp only [hfil, hd]
      rw [hheap]
      simp

/-! ## FIFO delivery -/

/-- C6: after any sequence of completed iterations from `app_main`, the blocks the
Validator received are an initial segment of the blocks whose `xQueueSend` succeeded, in
the same order (the remaining ones are the queue); the Validator reads each received
block with the SSID the Monitor copied into it, and no block is written twice.  With a
stalled consumer, of `n` samples captured the first `min n 5` are sent, in order, and
are what the Validator later receives; the others are freed by the Monitor.  Of six
samples, five are delivered in order and the sixth is dropped. -/
theorem c6_fifo_delivery :
    (∀ its : List Passo,
      recebidos (executar its app_main).2 <+: enviados (executar its app_main).2 ∧
      enviados (executar its app_main).2
        = recebidos (executar its app_main).2 ++ (executar its app_main).1.filaSSID ∧
      (lidos (executar its app_main).2).map Prod.fst = recebidos (executar its app_main).2 ∧
      (∀ b ∈ lidos (executar its app_main).2, b ∈ escritos (executar its app_main).2) ∧
      ((escritos (executar its app_main).2).map Prod.fst).Nodup) ∧
    (∀ (ssids : List String) (mutexOks : List Bool),
      enviados (executar (monitores ssids) app_main).2
        = (List.range ssids.length).take TAMANHO_FILA ∧
      liberados (executar (monitores ssids) app_main).2
        = (List.range ssids.length).drop TAMANHO_FILA ∧
      lidos (executar (monitores ssids ++ validadores mutexOks) app_main).2
        = (((List.range ssids.length).zip ssids).take TAMANHO_FILA).take mutexOks.length) ∧
    (lidos (executar (monitores ["a", "b", "c", "d", "e", "f"]
        ++ validadores [true, true, true, true, true, true, true]) app_main).2
      = [(0, "a"), (1, "b"), (2, "c"), (3, "d"), (4, "e")] ∧
     liberados (executar (monitores ["a", "b", "c", "d", "e", "f"]) app_main).2 = [5]) := by
  refine ⟨?_, ?_, by decide⟩
  · intro its
    obtain ⟨r1, r2, r3, r5, _, _⟩ := executar_obs its inv_app_main
    have he : enviados (executar its app_main).2
        = recebidos (executar its app_main).2 ++ (executar its app_main).1.filaSSID := by
      simpa [app_main] using r1
    refine ⟨⟨_, he.symm⟩, he, r2, ?_, ?_⟩
    · intro b hb
      rcases r3 b hb with h | h
      · simp [app_main] at h
      · exact h
    · have : (escritos (executar its app_main).2).map Prod.fst
          = List.range (executar its app_main).1.nextPtr := by
        simpa [app_main] using r5
      rw [this]
      exact List.nodup_range _
  · intro ssids mutexOks
    obtain ⟨m1, m2, _, m4, m5, m6⟩ := monitores_estado ssids
    obtain ⟨r1, _, _, _, _, r7⟩ := executar_obs (monitores ssids) inv_app_main
    refine ⟨?_, ?_, ?_⟩
    · rw [m6, m1] at r1
      simpa [app_main] using r1
    · rw [m4] at r7
      simpa [app_main] using r7.symm
    · rw [executar_append]
      simp only [lidos, List.filterMap_append]
      have hv := validadores_lidos mutexOks (Inv.executar (monitores ssids) inv_app_main)
      simp only [lidos] at hv m5
      rw [hv, m5, m2, List.nil_append]

/-! ## Lemmas: accesses of the other branches stay within ownership -/

theorem acessosEmPosse_leituras (p : Ptr) (posse : List Ptr) (hp : p ∈ posse) (l2 : List Event) :
    ∀ l1 : List Event, (∀ e ∈ l1, e.leitura p = true) →
      acessosEmPosse posse (l1 ++ l2) = acessosEmPosse posse l2 := by
  intro l1
  induction l1 with
  | nil => intro _; rfl
  | cons e es ih =>
    intro h
    have hes := ih (fun e he => h e (List.mem_cons_of_mem _ he))
    have he := h e (List.mem_cons_self _ _)
    cases e with
    | printfSSID f q t =>
      have hq : q = p := by simpa [Event.leitura] using he
      subst hq
      simpa [acessosEmPosse, hp] using hes
    | strcmp q i r =>
      have hq : q = p := by simpa [Event.leitura] using he
      subst hq
      simpa [acessosEmPosse, hp] using hes
    | malloc r => simp [Event.leitura] at he
    | strcpy q t => simp [Event.leitura] at he
    | xQueueSend q ok => simp [Event.leitura] at he
    | xQueueReceive r => simp [Event.leitura] at he
    | free q => simp [Event.leitura] at he
    | printf f => simpa [acessosEmPosse] using hes
    | printfStr f a => simpa [acessosEmPosse] using hes
    | xSemaphoreTake ok => simpa [acessosEmPosse] using hes
    | xSemaphoreGive => simpa [acessosEmPosse] using hes
    | esp_task_wdt_reset => simpa [acessosEmPosse] using hes
    | vTaskDelay ms => simpa [acessosEmPosse] using hes

theorem validar_relatar_leitura (mutexOk b : Bool) (p : Ptr) (s : String) :
    ∀ e ∈ (validar mutexOk p s).2 ++ relatar b p s, e.leitura p = true := by
  intro e he
  rw [List.mem_append] at he
  rcases he with he | he
  · cases mutexOk with
    | true =>
      rcases validar_true_snd p s e he with h | h | ⟨j, r, h⟩ <;> rw [h] <;> simp [Event.leitura]
    | false =>
      simp only [validar, Bool.false_eq_true, if_false, List.mem_cons, List.mem_singleton,
        List.not_mem_nil, or_false] at he
      rcases he with h | h <;> rw [h] <;> simp [Event.leitura]
  · cases b with
    | true =>
      simp only [relatar, if_true, List.mem_singleton] at he
      rw [he]; simp [Event.leitura]
    | false =>
      simp only [relatar, Bool.false_eq_true, if_false, List.mem_cons, List.mem_singleton,
        List.not_mem_nil, or_false] at he
      rcases he with h | h | h | h <;> rw [h] <;> simp [Event.leitura]

/-- Every Validator iteration reads the received block only between `xQueueReceive` and
`free`. -/
theorem validator_acessosEmPosse (mutexOk : Bool) (st : State) :
    acessosEmPosse [] (TaskWifiValidator mutexOk st).2 = true := by
  cases hq : st.filaSSID with
  | nil => rw [validator_timeout mutexOk st hq]; simp [acessosEmPosse]
  | cons p rest =>
    have hshape : (TaskWifiValidator mutexOk st).2 =
        Event.xQueueReceive (some p) :: Event.printfSSID fmtRecebido p (deref st p) ::
          (((validar mutexOk p (deref st p)).2
              ++ relatar (validar mutexOk p (deref st p)).1 p (deref st p))
            ++ [Event.free p, Event.esp_task_wdt_reset]) := by
      rw [validator_recebe mutexOk st p rest hq]; simp
    have h1 : ∀ l, acessosEmPosse [] (Event.xQueueReceive (some p) :: l) = acessosEmPosse [p] l :=
      fun l => by simp [acessosEmPosse]
    have h2 : ∀ f t l, acessosEmPosse [p] (Event.printfSSID f p t :: l) = acessosEmPosse [p] l :=
      fun f t l => by simp [acessosEmPosse]
    rw [hshape, h1, h2,
      acessosEmPosse_leituras p [p] (by simp) _ _ (validar_relatar_leitura mutexOk _ p _)]
    simp [acessosEmPosse]

/-- The Monitor iterations other than the one whose send succeeds stay within ownership:
allocation failure, no association, and the dropped sample (read, then freed). -/
theorem monitor_acessosEmPosse (ap_info : Option String) (mallocOk : Bool) (st : State) :
    acessosEmPosse [] (TaskWifiMonitor ap_info mallocOk st).2
      = !(ap_info.isSome && mallocOk && decide (st.filaSSID.length < TAMANHO_FILA)) := by
  cases ap_info with
  | none => simp [TaskWifiMonitor, acessosEmPosse]
  | some ssid =>
    cases mallocOk with
    | false => simp [TaskWifiMonitor, malloc, acessosEmPosse]
    | true =>
      by_cases hlen : st.filaSSID.length < TAMANHO_FILA <;>
        simp [TaskWifiMonitor, malloc, strcpy, xQueueSend, hlen, acessosEmPosse]

end GS2
